import Mathlib

/-!
Verification of the session/auth/data-access helpers of the vehicle
price-list dashboard (`src/app.py`).

Modelling conventions (shallow embedding):

* A Python `dict` loaded from a JSON file is an association list
  `List (String × β)`; `dget`, `dset`, `ddel` mirror lookup, item
  assignment and `del` (keys are unique in any state produced by the
  program, so `ddel` may remove every binding of the key).
* Google Cloud Storage is a map from blob path to blob content,
  `List (String × String)`.  `save_json_file` / `blob.upload_from_string`
  become `dset`, `blob.exists` / `download` become `dget`.  A function of
  the app that loads a file, mutates the parsed dict and saves it back is
  embedded as a function from the typed store to the typed store; the
  store it returns is the persisted file content after the call.
* `datetime.now()` is a `Nat` timestamp in seconds, passed as the `now`
  argument; `timedelta(hours=8)` is `8 * 3600` seconds.  `isoformat` /
  `fromisoformat` round-trip exactly, so records hold the numeric
  timestamps directly.
* `hashlib.sha256(...).hexdigest()` is implemented concretely
  (`sha256_hexdigest`), operating on the UTF-8 bytes of the input.
  `hashlib.md5` is only used to mint a session id whose value never
  matters, so it stays an abstract function argument `md5hex`.
* A pandas `DataFrame` is a header row plus cell rows (`DataFrame`);
  `df.to_csv(index=False)` and `pd.read_csv` are the concrete `toCsv` /
  `readCsv` below.
-/

namespace VNPrices

/-! ### Python dict as association list -/

def dget {β : Type} : List (String × β) → String → Option β
  | [], _ => none
  | (k, v) :: rest, key => if k = key then some v else dget rest key

def dset {β : Type} : List (String × β) → String → β → List (String × β)
  | [], key, val => [(key, val)]
  | (k, v) :: rest, key, val =>
      if k = key then (key, val) :: rest else (k, v) :: dset rest key val

def ddel {β : Type} : List (String × β) → String → List (String × β)
  | [], _ => []
  | (k, v) :: rest, key =>
      if k = key then ddel rest key else (k, v) :: ddel rest key

/-! ### SHA-256 (model of `hashlib.sha256(...).hexdigest()`) -/

def rotr32 (x n : Nat) : Nat := ((x >>> n) ||| (x <<< (32 - n))) % 4294967296

def bigSigma0 (x : Nat) : Nat := (rotr32 x 2) ^^^ (rotr32 x 13) ^^^ (rotr32 x 22)

def bigSigma1 (x : Nat) : Nat := (rotr32 x 6) ^^^ (rotr32 x 11) ^^^ (rotr32 x 25)

def smallSigma0 (x : Nat) : Nat := (rotr32 x 7) ^^^ (rotr32 x 18) ^^^ (x >>> 3)

def smallSigma1 (x : Nat) : Nat := (rotr32 x 17) ^^^ (rotr32 x 19) ^^^ (x >>> 10)

def sha256K : List Nat :=
  [1116352408, 1899447441, 3049323471, 3921009573,
   961987163, 1508970993, 2453635748, 2870763221,
   3624381080, 310598401, 607225278, 1426881987,
   1925078388, 2162078206, 2614888103, 3248222580,
   3835390401, 4022224774, 264347078, 604807628,
   770255983, 1249150122, 1555081692, 1996064986,
   2554220882, 2821834349, 2952996808, 3210313671,
   3336571891, 3584528711, 113926993, 338241895,
   666307205, 773529912, 1294757372, 1396182291,
   1695183700, 1986661051, 2177026350, 2456956037,
   2730485921, 2820302411, 3259730800, 3345764771,
   3516065817, 3600352804, 4094571909, 275423344,
   430227734, 506948616, 659060556, 883997877,
   958139571, 1322822218, 1537002063, 1747873779,
   1955562222, 2024104815, 2227730452, 2361852424,
   2428436474, 2756734187, 3204031479, 3329325298]

structure Hash8 where
  a : Nat
  b : Nat
  c : Nat
  d : Nat
  e : Nat
  f : Nat
  g : Nat
  hh : Nat
deriving DecidableEq

def sha256Init : Hash8 :=
  ⟨1779033703, 3144134277, 1013904242, 2773480762,
   1359893119, 2600822924, 528734635, 1541459225⟩

def sha256Round (st : Hash8) (wk : Nat × Nat) : Hash8 :=
  let ch := (st.e &&& st.f) ^^^ ((4294967295 - st.e) &&& st.g)
  let t1 := (st.hh + bigSigma1 st.e + ch + wk.1 + wk.2) % 4294967296
  let mj := (st.a &&& st.b) ^^^ (st.a &&& st.c) ^^^ (st.b &&& st.c)
  let t2 := (bigSigma0 st.a + mj) % 4294967296
  ⟨(t1 + t2) % 4294967296, st.a, st.b, st.c, (st.d + t1) % 4294967296, st.e, st.f, st.g⟩

def nextW (w : List Nat) : Nat :=
  let n := w.length
  (w.getD (n - 16) 0 + smallSigma0 (w.getD (n - 15) 0) +
   w.getD (n - 7) 0 + smallSigma1 (w.getD (n - 2) 0)) % 4294967296

def extendW (w : List Nat) : List Nat :=
  (List.range 48).foldl (fun acc _ => acc ++ [nextW acc]) w

def bytesToWords : List Nat → List Nat
  | b0 :: b1 :: b2 :: b3 :: rest =>
      (b0 * 16777216 + b1 * 65536 + b2 * 256 + b3) :: bytesToWords rest
  | _ => []

def sha256Chunk (st : Hash8) (chunk : List Nat) : Hash8 :=
  let w := extendW (bytesToWords chunk)
  let fin := (w.zip sha256K).foldl sha256Round st
  ⟨(st.a + fin.a) % 4294967296, (st.b + fin.b) % 4294967296,
   (st.c + fin.c) % 4294967296, (st.d + fin.d) % 4294967296,
   (st.e + fin.e) % 4294967296, (st.f + fin.f) % 4294967296,
   (st.g + fin.g) % 4294967296, (st.hh + fin.hh) % 4294967296⟩

def chunks64Aux : Nat → List Nat → List (List Nat)
  | 0, _ => []
  | _ + 1, [] => []
  | fuel + 1, x :: xs => ((x :: xs).take 64) :: chunks64Aux fuel ((x :: xs).drop 64)

def chunks64 (l : List Nat) : List (List Nat) := chunks64Aux l.length l

def sha256Pad (msg : List Nat) : List Nat :=
  let bitLen := 8 * msg.length
  let k := (119 - msg.length % 64) % 64
  msg ++ 128 :: List.replicate k 0 ++
    (List.range 8).reverse.map (fun i => (bitLen >>> (8 * i)) % 256)

def sha256Words (msg : List Nat) : List Nat :=
  let fin := (chunks64 (sha256Pad msg)).foldl sha256Chunk sha256Init
  [fin.a, fin.b, fin.c, fin.d, fin.e, fin.f, fin.g, fin.hh]

def hexDigit (n : Nat) : Char := "0123456789abcdef".data.getD n '0'

def wordHex (w : Nat) : List Char :=
  (List.range 8).reverse.map (fun i => hexDigit ((w >>> (4 * i)) % 16))

def utf8Bytes (c : Char) : List Nat :=
  let n := c.toNat
  if n < 128 then [n]
  else if n < 2048 then [192 ||| (n >>> 6), 128 ||| (n % 64)]
  else if n < 65536 then
    [224 ||| (n >>> 12), 128 ||| ((n >>> 6) % 64), 128 ||| (n % 64)]
  else
    [240 ||| (n >>> 18), 128 ||| ((n >>> 12) % 64), 128 ||| ((n >>> 6) % 64), 128 ||| (n % 64)]

def sha256_hexdigest (s : String) : String :=
  String.mk ((sha256Words ((s.data.map utf8Bytes).flatten)).map wordHex).flatten

/-- `hash_password` of `src/app.py`: SHA-256 hex digest of the UTF-8 encoding. -/
def hash_password (password : String) : String := sha256_hexdigest password

/-- `verify_password` of `src/app.py`. -/
def verify_password (password hashed : String) : Bool := hash_password password == hashed

/-! ### Users and sessions (`users.json` / `sessions.json`) -/

structure UserRec where
  password : String
  role : String
  created_at : Nat
  last_login : Option Nat
deriving DecidableEq

structure SessionRec where
  username : String
  created_at : Nat
  expires_at : Nat
deriving DecidableEq

abbrev Users := List (String × UserRec)

abbrev Sessions := List (String × SessionRec)

/-- `create_user` of `src/app.py`.  Returns the persisted users file
together with the `(success, message)` pair; on the duplicate branch the
function returns before `save_json_file`, so the file is the input one. -/
def create_user (users : Users) (username password role : String) (now : Nat) :
    Users × Bool × String :=
  match dget users username with
  | some _ => (users, false, "El usuario ya existe")
  | none =>
      (dset users username
        { password := hash_password password, role := role,
          created_at := now, last_login := none },
       true, "Usuario creado exitosamente")

/-- `authenticate_user` of `src/app.py`.  Returns the persisted users file
and the `(success, message)` pair. -/
def authenticate_user (users : Users) (username password : String) (now : Nat) :
    Users × Bool × String :=
  match dget users username with
  | none => (users, false, "Usuario no encontrado")
  | some urec =>
      if verify_password password urec.password then
        (dset users username { urec with last_login := some now },
         true, "Autenticación exitosa")
      else
        (users, false, "Contraseña incorrecta")

/-- `get_user_role` of `src/app.py`: `users.get(username, {}).get("role", "asesor")`.
Every record the program writes carries a `role` field, so the typed record
makes it mandatory; the `"asesor"` default is reached exactly when the
username is absent. -/
def get_user_role (users : Users) (username : String) : String :=
  match dget users username with
  | some urec => urec.role
  | none => "asesor"

/-- `create_session` of `src/app.py`.  `md5hex` abstracts
`hashlib.md5(...).hexdigest()`, used only to mint the session id. -/
def create_session (md5hex : String → String) (sessions : Sessions)
    (username : String) (now : Nat) : Sessions × String :=
  let session_id := md5hex (username ++ toString now)
  (dset sessions session_id
    { username := username, created_at := now, expires_at := now + 8 * 3600 },
   session_id)

/-- `validate_session` of `src/app.py`.  Returns the persisted sessions file
and the `(valid, username)` pair; `datetime.now() > expires_at` is
`expires_at < now`. -/
def validate_session (sessions : Sessions) (session_id : String) (now : Nat) :
    Sessions × Bool × Option String :=
  match dget sessions session_id with
  | none => (sessions, false, none)
  | some s =>
      if s.expires_at < now then (ddel sessions session_id, false, none)
      else (sessions, true, some s.username)

/-- `logout_session` of `src/app.py`. -/
def logout_session (sessions : Sessions) (session_id : String) : Sessions :=
  match dget sessions session_id with
  | some _ => ddel sessions session_id
  | none => sessions

/-! ### DataFrame and CSV (`pandas` as used by the app) -/

/-- A cell is its list of characters. -/
abbrev Cell := List Char

/-- A pandas DataFrame as the app uses it: a header and string-valued rows. -/
structure DataFrame where
  columns : List Cell
  rows : List (List Cell)
deriving DecidableEq

def strCell (s : String) : Cell := s.data

/-- Split a character list at every occurrence of `c` (CSV field/line split). -/
def splitOnChar (c : Char) : List Char → List (List Char)
  | [] => [[]]
  | x :: xs =>
      if x = c then [] :: splitOnChar c xs
      else
        match splitOnChar c xs with
        | [] => [[x]]
        | y :: ys => (x :: y) :: ys

/-- Interpose `c` between the pieces (CSV field/line join). -/
def intercalateChar (c : Char) : List (List Char) → List Char
  | [] => []
  | [l] => l
  | l :: ls => l ++ c :: intercalateChar c ls

/-- `df.to_csv(index=False)`: comma-joined header line, then comma-joined
rows, every line terminated by a newline. -/
def toCsv (df : DataFrame) : List Char :=
  (((df.columns :: df.rows).map (fun r => intercalateChar ',' r)).map
    (fun l => l ++ ['\n'])).flatten

/-- `pd.read_csv`: first line is the header, remaining lines are rows; a
final newline does not open an extra row; empty input is a parse error
(pandas raises `EmptyDataError`). -/
def readCsv (chars : List Char) : Option DataFrame :=
  let parts := splitOnChar '\n' chars
  let lines := if parts.getLast? = some [] then parts.dropLast else parts
  match lines with
  | [] => none
  | header :: rest =>
      some { columns := splitOnChar ',' header,
             rows := rest.map (fun r => splitOnChar ',' r) }

/-- Frames whose CSV image parses back exactly: a non-empty header, every
row non-empty, and no cell containing a separator character. -/
def csvSafe (df : DataFrame) : Prop :=
  df.columns ≠ [] ∧
  (∀ cell ∈ df.columns, ',' ∉ cell ∧ '\n' ∉ cell) ∧
  ∀ r ∈ df.rows, r ≠ [] ∧ ∀ cell ∈ r, ',' ∉ cell ∧ '\n' ∉ cell

instance : DecidablePred csvSafe := by
  intro df
  unfold csvSafe
  infer_instance

/-! ### GCS blob store and the file-level operations -/

/-- The GCS bucket contents: blob path to blob text. -/
abbrev BlobStore := List (String × String)

def GCS_BUCKET : String := "bk_vn"

def GCS_PATH : String := "nissan/prices"

def USERS_FILE : String := "gs://" ++ GCS_BUCKET ++ "/" ++ GCS_PATH ++ "/users.json"

def SESSIONS_FILE : String := "gs://" ++ GCS_BUCKET ++ "/" ++ GCS_PATH ++ "/sessions.json"

def PRODUCTS_FILE : String := "gs://" ++ GCS_BUCKET ++ "/" ++ GCS_PATH ++ "/products.csv"

def PRODUCTS_HISTORICAL_PATH : String :=
  "gs://" ++ GCS_BUCKET ++ "/" ++ GCS_PATH ++ "/historical/"

/-- Minimal JSON values, for `load_json_file`. -/
inductive Json where
  | null : Json
  | bool : Bool → Json
  | num : Int → Json
  | str : String → Json
  | arr : List Json → Json
  | obj : List (String × Json) → Json

/-- `load_json_file` of `src/app.py`.  `parseJson` abstracts `json.loads`;
a download or parse failure (the `except` branch) is `parseJson` returning
`none`.  When the blob is missing, or on any error, the caller-supplied
default is returned, and `{}` (`Json.obj []`) when that default is `None`. -/
def load_json_file (parseJson : String → Option Json) (store : BlobStore)
    (filename : String) (default : Option Json) : Json :=
  match dget store filename with
  | some content =>
      match parseJson content with
      | some j => j
      | none => match default with | some d => d | none => Json.obj []
  | none => match default with | some d => d | none => Json.obj []

/-- The fixed column list of `load_products`' empty-frame fallback. -/
def productColumns : List Cell :=
  [strCell "Familia", strCell "Año", strCell "Precio_Nibol", strCell "Precio_Lista",
   strCell "Descuento", strCell "Precio_Final", strCell "Dscto_Gerencia",
   strCell "Dsct_Seguro", strCell "Dscto_Impuesto", strCell "Bono",
   strCell "Precio_Gerencia", strCell "Precio_BOB", strCell "USDT",
   strCell "USD_Ext", strCell "USD_Efect"]

def emptyProducts : DataFrame := { columns := productColumns, rows := [] }

/-- `load_products` of `src/app.py`: parse `products.csv` when the blob
exists and parses; on a missing blob or any error, the empty frame with the
15 fixed columns. -/
def load_products (store : BlobStore) : DataFrame :=
  match dget store PRODUCTS_FILE with
  | some content =>
      match readCsv content.data with
      | some df => df
      | none => emptyProducts
  | none => emptyProducts

/-- `save_products` of `src/app.py`: write `df.to_csv(index=False)` to the
historical blob named after the current timestamp, then to the main
products blob.  `timestamp` is `datetime.now().strftime("%Y-%m-%d_%H-%M")`. -/
def save_products (store : BlobStore) (df : DataFrame) (timestamp : String) : BlobStore :=
  let historical_filename := timestamp ++ "_nissan_price_list.csv"
  let historical_full_path := PRODUCTS_HISTORICAL_PATH ++ historical_filename
  let content := String.mk (toCsv df)
  dset (dset store historical_full_path content) PRODUCTS_FILE content

/-! ### Role-gated dashboard column selection (`show_products_dashboard`) -/

def basic_columns : List Cell :=
  [strCell "Familia", strCell "Año", strCell "Precio_Nibol",
   strCell "Precio_Lista", strCell "Descuento", strCell "Precio_Final"]

/-- Columns of the dataframe handed to `st.dataframe` in
`show_products_dashboard` (src/app.py lines 432-445): an `asesor` gets the
basic columns present in the table when at least one is, otherwise the full
table; every other role gets the full table. -/
def displayed_columns (user_role : String) (df : DataFrame) : List Cell :=
  if user_role = "asesor" then
    let available := basic_columns.filter (fun col => col ∈ df.columns)
    if available.isEmpty then df.columns else available
  else df.columns

/-- A concrete two-column frame, used as an evaluation witness. -/
def sampleFrame : DataFrame :=
  { columns := [strCell "Familia", strCell "Extra"],
    rows := [[strCell "Versa", strCell "1"], [strCell "Kicks", strCell "2"]] }

/-- A concrete non-empty frame none of whose columns is a basic column. -/
def offListFrame : DataFrame :=
  { columns := [strCell "X"], rows := [[strCell "1"]] }

/-! ### Helper lemmas: dict operations -/

theorem dget_dset_self {β : Type} (m : List (String × β)) (k : String) (v : β) :
    dget (dset m k v) k = some v := by
  induction m with
  | nil => simp [dset, dget]
  | cons p rest ih =>
      obtain ⟨k', v'⟩ := p
      by_cases h : k' = k <;> simp [dset, dget, h, ih]

theorem dget_dset_ne {β : Type} (m : List (String × β)) (k k' : String) (v : β)
    (h : k ≠ k') : dget (dset m k v) k' = dget m k' := by
  induction m with
  | nil => simp [dset, dget, h]
  | cons p rest ih =>
      obtain ⟨a, b⟩ := p
      by_cases ha : a = k
      · subst ha
        simp [dset, dget, h]
      · simp [dset, dget, ha, ih]

theorem dget_ddel_self {β : Type} (m : List (String × β)) (k : String) :
    dget (ddel m k) k = none := by
  induction m with
  | nil => simp [ddel, dget]
  | cons p rest ih =>
      obtain ⟨a, b⟩ := p
      by_cases ha : a = k <;> simp [ddel, dget, ha, ih]

theorem dget_ddel_ne {β : Type} (m : List (String × β)) (k k' : String)
    (h : k ≠ k') : dget (ddel m k) k' = dget m k' := by
  induction m with
  | nil => simp [ddel, dget]
  | cons p rest ih =>
      obtain ⟨a, b⟩ := p
      by_cases ha : a = k
      · subst ha
        simp [ddel, dget, h, ih]
      · simp [ddel, dget, ha, ih]

theorem length_dset_of_dget_none {β : Type} (m : List (String × β)) (k : String) (v : β)
    (h : dget m k = none) : (dset m k v).length = m.length + 1 := by
  induction m with
  | nil => simp [dset]
  | cons p rest ih =>
      obtain ⟨a, b⟩ := p
      by_cases ha : a = k
      · simp [dget, ha] at h
      · simp [dget, ha] at h
        simp [dset, ha, ih h]

/-! ### Helper lemmas: CSV split/join round-trip -/

theorem splitOnChar_of_not_mem (c : Char) (l : List Char) (h : c ∉ l) :
    splitOnChar c l = [l] := by
  induction l with
  | nil => rfl
  | cons x xs ih =>
      simp only [List.mem_cons, not_or] at h
      have hx : ¬ (x = c) := fun hc => h.1 hc.symm
      simp [splitOnChar, hx, ih h.2]

theorem splitOnChar_append_cons (c : Char) (l rest : List Char) (h : c ∉ l) :
    splitOnChar c (l ++ c :: rest) = l :: splitOnChar c rest := by
  induction l with
  | nil => simp [splitOnChar]
  | cons x xs ih =>
      simp only [List.mem_cons, not_or] at h
      have hx : ¬ (x = c) := fun hc => h.1 hc.symm
      simp [splitOnChar, hx, ih h.2]

theorem splitOnChar_flatten_lines (c : Char) (ls : List (List Char))
    (h : ∀ l ∈ ls, c ∉ l) :
    splitOnChar c ((ls.map (fun l => l ++ [c])).flatten) = ls ++ [[]] := by
  induction ls with
  | nil => simp [splitOnChar]
  | cons l ls ih =>
      have hl : c ∉ l := h l (List.mem_cons_self l ls)
      have hrest : ∀ x ∈ ls, c ∉ x := fun x hx => h x (List.mem_cons_of_mem l hx)
      calc splitOnChar c (((l :: ls).map (fun l => l ++ [c])).flatten)
          = splitOnChar c (l ++ c :: (ls.map (fun l => l ++ [c])).flatten) := by
            simp
        _ = l :: splitOnChar c ((ls.map (fun l => l ++ [c])).flatten) :=
            splitOnChar_append_cons c l _ hl
        _ = l :: (ls ++ [[]]) := by rw [ih hrest]
        _ = (l :: ls) ++ [[]] := rfl

theorem splitOnChar_intercalateChar (c : Char) (cells : List (List Char))
    (hne : cells ≠ []) (h : ∀ x ∈ cells, c ∉ x) :
    splitOnChar c (intercalateChar c cells) = cells := by
  induction cells with
  | nil => exact absurd rfl hne
  | cons x xs ih =>
      cases xs with
      | nil =>
          simp [intercalateChar, splitOnChar_of_not_mem c x (h x (List.mem_cons_self x []))]
      | cons y ys =>
          have hx : c ∉ x := h x (List.mem_cons_self x (y :: ys))
          have hrest : ∀ z ∈ y :: ys, c ∉ z := fun z hz => h z (List.mem_cons_of_mem x hz)
          calc splitOnChar c (intercalateChar c (x :: y :: ys))
              = splitOnChar c (x ++ c :: intercalateChar c (y :: ys)) := rfl
            _ = x :: splitOnChar c (intercalateChar c (y :: ys)) :=
                splitOnChar_append_cons c x _ hx
            _ = x :: y :: ys := by rw [ih (by simp) hrest]

theorem not_mem_intercalateChar (d c : Char) (ls : List (List Char))
    (hdc : d ≠ c) (h : ∀ l ∈ ls, d ∉ l) : d ∉ intercalateChar c ls := by
  induction ls with
  | nil => simp [intercalateChar]
  | cons x xs ih =>
      cases xs with
      | nil =>
          simpa [intercalateChar] using h x (List.mem_cons_self x [])
      | cons y ys =>
          have hx : d ∉ x := h x (List.mem_cons_self x (y :: ys))
          have hrest : ∀ z ∈ y :: ys, d ∉ z := fun z hz => h z (List.mem_cons_of_mem x hz)
          have htail := ih hrest
          simp only [intercalateChar, List.mem_append, List.mem_cons, not_or]
          exact ⟨hx, hdc, htail⟩

theorem readCsv_toCsv (df : DataFrame) (h : csvSafe df) : readCsv (toCsv df) = some df := by
  obtain ⟨hcols, hcc, hrows⟩ := h
  have hnl : ∀ l ∈ (df.columns :: df.rows).map (fun r => intercalateChar ',' r), '\n' ∉ l := by
    intro l hl
    simp only [List.map_cons, List.mem_cons, List.mem_map] at hl
    rcases hl with hl | ⟨r, hr, rfl⟩
    · subst hl
      exact not_mem_intercalateChar '\n' ',' df.columns (by decide)
        (fun cell hc => (hcc cell hc).2)
    · exact not_mem_intercalateChar '\n' ',' r (by decide)
        (fun cell hc => ((hrows r hr).2 cell hc).2)
  have h1 : splitOnChar '\n' (toCsv df) =
      ((df.columns :: df.rows).map (fun r => intercalateChar ',' r)) ++ [[]] := by
    unfold toCsv
    exact splitOnChar_flatten_lines '\n' _ hnl
  have h2 : df.rows.map (fun r => splitOnChar ',' (intercalateChar ',' r)) = df.rows := by
    calc df.rows.map (fun r => splitOnChar ',' (intercalateChar ',' r))
        = df.rows.map id :=
          List.map_congr_left (fun r hr =>
            splitOnChar_intercalateChar ',' r (hrows r hr).1
              (fun cell hc => ((hrows r hr).2 cell hc).1))
      _ = df.rows := List.map_id df.rows
  simp only [readCsv, h1, List.getLast?_concat, List.dropLast_concat, List.map_cons,
    reduceIte, List.map_map, Function.comp_def]
  rw [splitOnChar_intercalateChar ',' df.columns hcols (fun cell hc => (hcc cell hc).1), h2]

/-! ### Helper lemmas: blob paths and save/load -/

theorem histPath_ne_productsFile (ts : String) :
    PRODUCTS_HISTORICAL_PATH ++ (ts ++ "_nissan_price_list.csv") ≠ PRODUCTS_FILE := by
  intro h
  have hd : (PRODUCTS_HISTORICAL_PATH ++ (ts ++ "_nissan_price_list.csv")).data =
      PRODUCTS_FILE.data := congrArg String.data h
  rw [String.data_append] at hd
  have h25 := congrArg (fun l => l[25]?) hd
  simp only at h25
  rw [List.getElem?_append_left (by decide :
    25 < PRODUCTS_HISTORICAL_PATH.data.length)] at h25
  exact absurd h25 (by decide)

theorem dget_save_products_main (store : BlobStore) (df : DataFrame) (ts : String) :
    dget (save_products store df ts) PRODUCTS_FILE = some (String.mk (toCsv df)) := by
  simp only [save_products]
  exact dget_dset_self _ _ _

theorem dget_save_products_hist (store : BlobStore) (df : DataFrame) (ts : String) :
    dget (save_products store df ts)
        (PRODUCTS_HISTORICAL_PATH ++ (ts ++ "_nissan_price_list.csv")) =
      some (String.mk (toCsv df)) := by
  simp only [save_products]
  rw [dget_dset_ne _ _ _ _ (Ne.symm (histPath_ne_productsFile ts))]
  exact dget_dset_self _ _ _

theorem load_products_save (store : BlobStore) (df : DataFrame) (ts : String)
    (h : csvSafe df) : load_products (save_products store df ts) = df := by
  unfold load_products
  rw [dget_save_products_main store df ts]
  show (match readCsv (String.mk (toCsv df)).data with
        | some df' => df'
        | none => emptyProducts) = df
  have hdata : (String.mk (toCsv df)).data = toCsv df := rfl
  rw [hdata, readCsv_toCsv df h]

/-! ### Validation of the SHA-256 model against published test vectors -/

theorem sha256_vector_abc :
    sha256_hexdigest "abc" =
      "ba7816bf8f01cfea414140de5dae2223b00361a396177a9cb410ff61f20015ad" := by decide

theorem sha256_vector_empty :
    sha256_hexdigest "" =
      "e3b0c44298fc1c149afbf4c8996fb92427ae41e4649b934ca495991b7852b855" := by decide

set_option maxRecDepth 8192 in
theorem sha256_vector_two_blocks :
    sha256_hexdigest "abcdbcdecdefdefgefghfghighijhijkijkljklmklmnlmnomnopnopq" =
      "248d6a61d20638b8e5c026930c3e6039a33ce45964ff2167f6ecedd419db06c1" := by decide

/-! ### Claim theorems -/

/-- C1: sessions are time-boxed to 8 hours.  `create_session` stores, under
the session id it returns, a record whose `created_at` is the current time
and whose `expires_at` is the current time plus `8 * 3600` seconds (so
`expires_at = created_at + 8h`); and `validate_session` answers
`(true, stored username)` exactly when the id is present and the current
time is not after that session's `expires_at`, and `(false, none)`
otherwise. -/
theorem session_timebox_spec (md5hex : String → String) (sessions : Sessions)
    (username : String) (now : Nat) :
    dget (create_session md5hex sessions username now).1
        (create_session md5hex sessions username now).2 =
      some { username := username, created_at := now, expires_at := now + 8 * 3600 } ∧
    ∀ (sessions2 : Sessions) (sid : String) (now2 : Nat) (u : String),
      ((validate_session sessions2 sid now2).2 = (true, some u) ↔
        ∃ s, dget sessions2 sid = some s ∧ s.username = u ∧ now2 ≤ s.expires_at) ∧
      (¬ (∃ s, dget sessions2 sid = some s ∧ now2 ≤ s.expires_at) →
        (validate_session sessions2 sid now2).2 = (false, none)) := by
  constructor
  · exact dget_dset_self sessions _ _
  · intro sessions2 sid now2 u
    cases hdg : dget sessions2 sid with
    | none =>
        constructor
        · constructor
          · intro hval
            simp [validate_session, hdg] at hval
          · rintro ⟨s, hs, -⟩
            exact absurd hs (by simp)
        · intro _
          simp [validate_session, hdg]
    | some s =>
        by_cases hlt : s.expires_at < now2
        · constructor
          · constructor
            · intro hval
              simp [validate_session, hdg, hlt] at hval
            · rintro ⟨s', hs', -, hle⟩
              obtain rfl : s = s' := by injection hs'
              omega
          · intro _
            simp [validate_session, hdg, hlt]
        · have hle : now2 ≤ s.expires_at := Nat.not_lt.mp hlt
          constructor
          · constructor
            · intro hval
              simp [validate_session, hdg, hlt] at hval
              exact ⟨s, rfl, hval, hle⟩
            · rintro ⟨s', hs', hu, -⟩
              obtain rfl : s = s' := by injection hs'
              simp [validate_session, hdg, hlt, hu]
          · intro hno
            exact absurd ⟨s, rfl, hle⟩ hno

/-- C1 witness: the theorem evaluated on a concrete store. -/
theorem session_timebox_witness :
    dget (create_session (fun _ => "sid") [] "ana" 100).1
        (create_session (fun _ => "sid") [] "ana" 100).2 =
      some { username := "ana", created_at := 100, expires_at := 100 + 8 * 3600 } ∧
    (validate_session [("sid", ⟨"ana", 100, 28900⟩)] "sid" 200).2 = (true, some "ana") ∧
    (validate_session [] "missing" 5).2 = (false, none) := by
  refine ⟨(session_timebox_spec (fun _ => "sid") [] "ana" 100).1, ?_, ?_⟩
  · exact ((session_timebox_spec (fun _ => "sid") [] "ana" 100).2
      [("sid", ⟨"ana", 100, 28900⟩)] "sid" 200 "ana").1.mpr
      ⟨⟨"ana", 100, 28900⟩, by decide, rfl, by decide⟩
  · exact ((session_timebox_spec (fun _ => "sid") [] "ana" 100).2 [] "missing" 5 "u").2
      (by simp [dget])

/-- C2: password hashing and verification round-trip.
`verify_password p (hash_password p)` is `true`, and `verify_password p h`
is `true` exactly when `h` is the SHA-256 hex digest of `p`
(`sha256_hexdigest`, validated above against the published test vectors).
Determinism of `hash_password` is immediate: it is a pure function of its
argument. -/
theorem password_roundtrip_spec (p h : String) :
    verify_password p (hash_password p) = true ∧
    (verify_password p h = true ↔ h = sha256_hexdigest p) := by
  constructor
  · exact beq_self_eq_true (hash_password p)
  · constructor
    · intro hv
      exact (eq_of_beq hv).symm
    · intro hv
      subst hv
      exact beq_self_eq_true (hash_password p)

/-- C2 witness: the theorem evaluated at concrete strings. -/
theorem password_roundtrip_witness :
    verify_password "admin123" (hash_password "admin123") = true ∧
    (verify_password "admin123" "zz" = true ↔ "zz" = sha256_hexdigest "admin123") :=
  password_roundtrip_spec "admin123" "zz"

/-- C3: a timestamped history copy accompanies every save.  `save_products`
writes the CSV serialization of `df` to the blob named
`timestamp ++ "_nissan_price_list.csv"` under the historical path, and the
identical content to the main products blob. -/
theorem save_products_history_spec (store : BlobStore) (df : DataFrame) (timestamp : String) :
    dget (save_products store df timestamp)
        (PRODUCTS_HISTORICAL_PATH ++ (timestamp ++ "_nissan_price_list.csv")) =
      some (String.mk (toCsv df)) ∧
    dget (save_products store df timestamp) PRODUCTS_FILE = some (String.mk (toCsv df)) :=
  ⟨dget_save_products_hist store df timestamp, dget_save_products_main store df timestamp⟩

/-- C4: expired sessions are removed on validation.  When the id is present
and its `expires_at` is strictly before the current time,
`validate_session` persists the store with that session deleted and answers
`(false, none)`; every other session is untouched. -/
theorem validate_session_expired_spec (sessions : Sessions) (sid : String) (now : Nat)
    (s : SessionRec) (hs : dget sessions sid = some s) (hexp : s.expires_at < now) :
    validate_session sessions sid now = (ddel sessions sid, false, none) ∧
    dget (validate_session sessions sid now).1 sid = none ∧
    ∀ k, k ≠ sid → dget (validate_session sessions sid now).1 k = dget sessions k := by
  have hv : validate_session sessions sid now = (ddel sessions sid, false, none) := by
    simp [validate_session, hs, hexp]
  refine ⟨hv, ?_, ?_⟩
  · rw [hv]
    exact dget_ddel_self sessions sid
  · intro k hk
    rw [hv]
    exact dget_ddel_ne sessions sid k (Ne.symm hk)

/-- C4 witness: the theorem evaluated on a concrete expired session. -/
theorem validate_session_expired_witness :
    validate_session [("sid", ⟨"ana", 0, 10⟩), ("other", ⟨"bob", 0, 999⟩)] "sid" 50 =
      (ddel [("sid", ⟨"ana", 0, 10⟩), ("other", ⟨"bob", 0, 999⟩)] "sid", false, none) ∧
    dget (validate_session [("sid", ⟨"ana", 0, 10⟩), ("other", ⟨"bob", 0, 999⟩)] "sid" 50).1
      "sid" = none ∧
    dget (validate_session [("sid", ⟨"ana", 0, 10⟩), ("other", ⟨"bob", 0, 999⟩)] "sid" 50).1
      "other" = dget [("sid", ⟨"ana", 0, 10⟩), ("other", ⟨"bob", 0, 999⟩)] "other" := by
  have T := validate_session_expired_spec
    [("sid", ⟨"ana", 0, 10⟩), ("other", ⟨"bob", 0, 999⟩)] "sid" 50
    ⟨"ana", 0, 10⟩ (by decide) (by decide)
  exact ⟨T.1, T.2.1, T.2.2 "other" (by decide)⟩

/-- C5: authentication verifies the stored password hash.  Absent username:
`(False, "Usuario no encontrado")`, store untouched; hash mismatch:
`(False, "Contraseña incorrecta")`, store untouched; match:
`(True, "Autenticación exitosa")` and only that user's `last_login` is set
to the current time. -/
theorem authenticate_user_spec (users : Users) (username password : String) (now : Nat) :
    (dget users username = none →
      authenticate_user users username password now = (users, false, "Usuario no encontrado")) ∧
    (∀ urec, dget users username = some urec → hash_password password ≠ urec.password →
      authenticate_user users username password now = (users, false, "Contraseña incorrecta")) ∧
    (∀ urec, dget users username = some urec → hash_password password = urec.password →
      (authenticate_user users username password now).2 = (true, "Autenticación exitosa") ∧
      dget (authenticate_user users username password now).1 username =
        some { urec with last_login := some now } ∧
      ∀ k, k ≠ username →
        dget (authenticate_user users username password now).1 k = dget users k) := by
  refine ⟨?_, ?_, ?_⟩
  · intro h
    simp [authenticate_user, h]
  · intro urec hrec hne
    simp [authenticate_user, hrec, verify_password, beq_iff_eq, hne]
  · intro urec hrec heq
    have ha : authenticate_user users username password now =
        (dset users username { urec with last_login := some now },
         true, "Autenticación exitosa") := by
      simp [authenticate_user, hrec, verify_password, beq_iff_eq, heq]
    refine ⟨by rw [ha], by rw [ha]; exact dget_dset_self _ _ _, ?_⟩
    intro k hk
    rw [ha]
    exact dget_dset_ne _ _ _ _ (Ne.symm hk)

/-- C5 witness: the theorem evaluated on concrete stores, one digest
computed by the kernel for the mismatch branch. -/
theorem authenticate_user_witness :
    authenticate_user [] "bob" "pw" 7 = ([], false, "Usuario no encontrado") ∧
    authenticate_user [("ana", ⟨"nothash", "admin", 1, none⟩)] "ana" "pw" 7 =
      ([("ana", ⟨"nothash", "admin", 1, none⟩)], false, "Contraseña incorrecta") ∧
    (authenticate_user [("ana", ⟨hash_password "pw", "admin", 1, none⟩)] "ana" "pw" 7).2 =
      (true, "Autenticación exitosa") ∧
    dget (authenticate_user [("ana", ⟨hash_password "pw", "admin", 1, none⟩)] "ana" "pw" 7).1
      "ana" = some ⟨hash_password "pw", "admin", 1, some 7⟩ := by
  have T3 := (authenticate_user_spec [("ana", ⟨hash_password "pw", "admin", 1, none⟩)]
    "ana" "pw" 7).2.2 ⟨hash_password "pw", "admin", 1, none⟩ rfl rfl
  exact ⟨(authenticate_user_spec [] "bob" "pw" 7).1 rfl,
    (authenticate_user_spec [("ana", ⟨"nothash", "admin", 1, none⟩)] "ana" "pw" 7).2.1
      ⟨"nothash", "admin", 1, none⟩ rfl (by decide),
    T3.1, T3.2.1⟩

/-- C6 counterexample: a non-empty one-column table whose only column is
not a basic column.  None of the basic columns exists in the table, yet an
`asesor` is shown the full table (the `else` fallback of
`show_products_dashboard`), not "only the basic columns that exist". -/
theorem dashboard_asesor_counterexample :
    offListFrame.rows ≠ [] ∧
    basic_columns.filter (fun col => col ∈ offListFrame.columns) = [] ∧
    displayed_columns "asesor" offListFrame = offListFrame.columns ∧
    displayed_columns "asesor" offListFrame ≠
      basic_columns.filter (fun col => col ∈ offListFrame.columns) := by decide

/-- C6 (amended): for every non-empty products table, an `asesor` is shown
exactly the basic columns that exist in the table when at least one of them
does, and the full table when none does; every other role is shown all
columns. -/
theorem dashboard_columns_amended_spec (df : DataFrame) (user_role : String)
    (_hrows : df.rows ≠ []) :
    (user_role = "asesor" →
      (basic_columns.filter (fun col => col ∈ df.columns) ≠ [] →
        displayed_columns user_role df =
          basic_columns.filter (fun col => col ∈ df.columns)) ∧
      (basic_columns.filter (fun col => col ∈ df.columns) = [] →
        displayed_columns user_role df = df.columns)) ∧
    (user_role ≠ "asesor" → displayed_columns user_role df = df.columns) := by
  constructor
  · intro hrole
    constructor
    · intro hne
      simp [displayed_columns, hrole, List.isEmpty_iff, hne]
    · intro he
      simp [displayed_columns, hrole, List.isEmpty_iff, he]
  · intro hrole
    simp [displayed_columns, hrole]

/-- C6 witness: the amended theorem evaluated on concrete frames and roles. -/
theorem dashboard_columns_amended_witness :
    displayed_columns "asesor" sampleFrame =
      basic_columns.filter (fun col => col ∈ sampleFrame.columns) ∧
    displayed_columns "asesor" offListFrame = offListFrame.columns ∧
    displayed_columns "gerencia_ventas" sampleFrame = sampleFrame.columns := by
  refine ⟨?_, ?_, ?_⟩
  · exact ((dashboard_columns_amended_spec sampleFrame "asesor" (by decide)).1 rfl).1 (by decide)
  · exact ((dashboard_columns_amended_spec offListFrame "asesor" (by decide)).1 rfl).2 (by decide)
  · exact (dashboard_columns_amended_spec sampleFrame "gerencia_ventas" (by decide)).2 (by decide)

/-- C7: last write wins on the price list.  Whatever the prior bucket
contents (any earlier saves included), after `save_products df` the main
products blob holds exactly the CSV serialization of `df`, and a
`load_products` with no intervening save parses it back to `df` (for frames
whose cells are CSV-safe, `csvSafe`). -/
theorem last_write_wins_spec (store : BlobStore) (df : DataFrame) (ts : String)
    (h : csvSafe df) :
    dget (save_products store df ts) PRODUCTS_FILE = some (String.mk (toCsv df)) ∧
    load_products (save_products store df ts) = df :=
  ⟨dget_save_products_main store df ts, load_products_save store df ts h⟩

/-- C7 witness: the theorem evaluated on a concrete frame over a bucket
already holding stale content for the main blob. -/
theorem last_write_wins_witness :
    csvSafe sampleFrame ∧
    load_products (save_products [(PRODUCTS_FILE, "stale")] sampleFrame "2024-01-01_00-00") =
      sampleFrame :=
  ⟨by decide,
   (last_write_wins_spec [(PRODUCTS_FILE, "stale")] sampleFrame "2024-01-01_00-00"
     (by decide)).2⟩

/-- C8: user creation is atomic on duplicates.  An existing username gets
`(False, "El usuario ya existe")` with the store not written (returned
unchanged); a fresh username adds exactly one entry holding the SHA-256
hash of the password, the given role, the creation timestamp and
`last_login = none`, leaves every other entry unchanged, and returns
`(True, "Usuario creado exitosamente")`. -/
theorem create_user_spec (users : Users) (username password role : String) (now : Nat) :
    (∀ r, dget users username = some r →
      create_user users username password role now = (users, false, "El usuario ya existe")) ∧
    (dget users username = none →
      (create_user users username password role now).2 = (true, "Usuario creado exitosamente") ∧
      dget (create_user users username password role now).1 username =
        some { password := hash_password password, role := role,
               created_at := now, last_login := none } ∧
      (∀ k, k ≠ username →
        dget (create_user users username password role now).1 k = dget users k) ∧
      (create_user users username password role now).1.length = users.length + 1) := by
  constructor
  · intro r hr
    simp [create_user, hr]
  · intro h
    have hc : create_user users username password role now =
        (dset users username
          { password := hash_password password, role := role,
            created_at := now, last_login := none },
         true, "Usuario creado exitosamente") := by
      simp [create_user, h]
    refine ⟨by rw [hc], by rw [hc]; exact dget_dset_self _ _ _, ?_, ?_⟩
    · intro k hk
      rw [hc]
      exact dget_dset_ne _ _ _ _ (Ne.symm hk)
    · rw [hc]
      exact length_dset_of_dget_none users username _ h

/-- C8 witness: the theorem evaluated on concrete stores. -/
theorem create_user_witness :
    create_user [("ana", ⟨"h", "admin", 1, none⟩)] "ana" "pw" "asesor" 9 =
      ([("ana", ⟨"h", "admin", 1, none⟩)], false, "El usuario ya existe") ∧
    (create_user [("ana", ⟨"h", "admin", 1, none⟩)] "bob" "pw" "asesor" 9).2 =
      (true, "Usuario creado exitosamente") ∧
    dget (create_user [("ana", ⟨"h", "admin", 1, none⟩)] "bob" "pw" "asesor" 9).1 "bob" =
      some ⟨hash_password "pw", "asesor", 9, none⟩ ∧
    dget (create_user [("ana", ⟨"h", "admin", 1, none⟩)] "bob" "pw" "asesor" 9).1 "ana" =
      dget [("ana", ⟨"h", "admin", 1, none⟩)] "ana" ∧
    (create_user [("ana", ⟨"h", "admin", 1, none⟩)] "bob" "pw" "asesor" 9).1.length =
      ([("ana", ⟨"h", "admin", 1, none⟩)] : Users).length + 1 := by
  have T2 := (create_user_spec ([("ana", ⟨"h", "admin", 1, none⟩)] : Users)
    "bob" "pw" "asesor" 9).2 rfl
  have T1 := (create_user_spec ([("ana", ⟨"h", "admin", 1, none⟩)] : Users)
    "ana" "pw" "asesor" 9).1 (⟨"h", "admin", 1, none⟩ : UserRec) rfl
  exact ⟨T1, T2.1, T2.2.1, T2.2.2.1 "ana" (by decide), T2.2.2.2⟩

/-- C9: unknown users default to the least-privileged role.
`get_user_role` answers the stored role for a present username and
`"asesor"` for an absent one. -/
theorem get_user_role_spec (users : Users) (username : String) :
    (∀ urec, dget users username = some urec → get_user_role users username = urec.role) ∧
    (dget users username = none → get_user_role users username = "asesor") := by
  constructor
  · intro urec hrec
    simp [get_user_role, hrec]
  · intro h
    simp [get_user_role, h]

/-- C9 witness: the theorem evaluated on a concrete store. -/
theorem get_user_role_witness :
    get_user_role [("ana", ⟨"h", "gerencia_ventas", 1, none⟩)] "ana" = "gerencia_ventas" ∧
    get_user_role [("ana", ⟨"h", "gerencia_ventas", 1, none⟩)] "bob" = "asesor" :=
  ⟨(get_user_role_spec [("ana", ⟨"h", "gerencia_ventas", 1, none⟩)] "ana").1
    ⟨"h", "gerencia_ventas", 1, none⟩ rfl,
   (get_user_role_spec [("ana", ⟨"h", "gerencia_ventas", 1, none⟩)] "bob").2 rfl⟩

/-- C10: loaders are total and never propagate failure.  Both functions are
total Lean functions (no exception can escape by construction), and:
`load_json_file` answers the parsed value when the blob exists and parses,
the caller-supplied default on a missing blob or any error, and `{}` when
that default is `none`; `load_products` answers the parsed table when the
blob exists and parses, and otherwise the empty frame carrying exactly the
15 fixed price-list columns. -/
theorem loaders_total_spec (parseJson : String → Option Json) (store : BlobStore)
    (filename : String) (d : Option Json) (pstore : BlobStore) :
    (∀ content j, dget store filename = some content → parseJson content = some j →
      load_json_file parseJson store filename d = j) ∧
    (∀ content, dget store filename = some content → parseJson content = none →
      load_json_file parseJson store filename d =
        (match d with | some x => x | none => Json.obj [])) ∧
    (dget store filename = none →
      load_json_file parseJson store filename d =
        (match d with | some x => x | none => Json.obj [])) ∧
    (dget store filename = none → load_json_file parseJson store filename none = Json.obj []) ∧
    (dget pstore PRODUCTS_FILE = none → load_products pstore = emptyProducts) ∧
    (∀ content, dget pstore PRODUCTS_FILE = some content → readCsv content.data = none →
      load_products pstore = emptyProducts) ∧
    (∀ content df, dget pstore PRODUCTS_FILE = some content → readCsv content.data = some df →
      load_products pstore = df) ∧
    emptyProducts.columns = productColumns ∧
    productColumns.length = 15 := by
  refine ⟨?_, ?_, ?_, ?_, ?_, ?_, ?_, rfl, by decide⟩
  · intro content j hc hp
    simp [load_json_file, hc, hp]
  · intro content hc hp
    simp [load_json_file, hc, hp]
  · intro hc
    simp [load_json_file, hc]
  · intro hc
    simp [load_json_file, hc]
  · intro hc
    simp [load_products, hc]
  · intro content hc hp
    simp [load_products, hc, hp]
  · intro content df hc hp
    simp [load_products, hc, hp]

/-- C10 witness: the theorem evaluated on concrete stores, a concrete
parser and concrete CSV content for every branch. -/
theorem loaders_total_witness :
    load_json_file (fun s => if s = "good" then some (Json.num 1) else none)
      [("f", "good"), ("g", "bad")] "f" (some (Json.str "dflt")) = Json.num 1 ∧
    load_json_file (fun s => if s = "good" then some (Json.num 1) else none)
      [("f", "good"), ("g", "bad")] "g" (some (Json.str "dflt")) = Json.str "dflt" ∧
    load_json_file (fun s => if s = "good" then some (Json.num 1) else none)
      [("f", "good"), ("g", "bad")] "missing" (some (Json.str "dflt")) = Json.str "dflt" ∧
    load_json_file (fun s => if s = "good" then some (Json.num 1) else none)
      [("f", "good"), ("g", "bad")] "missing" none = Json.obj [] ∧
    load_products [] = emptyProducts ∧
    load_products [(PRODUCTS_FILE, "")] = emptyProducts ∧
    load_products [(PRODUCTS_FILE, String.mk (toCsv sampleFrame))] = sampleFrame := by
  have T := loaders_total_spec (fun s => if s = "good" then some (Json.num 1) else none)
    [("f", "good"), ("g", "bad")] "f" (some (Json.str "dflt")) []
  have T2 := loaders_total_spec (fun s => if s = "good" then some (Json.num 1) else none)
    [("f", "good"), ("g", "bad")] "g" (some (Json.str "dflt")) [(PRODUCTS_FILE, "")]
  have T3 := loaders_total_spec (fun s => if s = "good" then some (Json.num 1) else none)
    [("f", "good"), ("g", "bad")] "missing" (some (Json.str "dflt"))
    [(PRODUCTS_FILE, String.mk (toCsv sampleFrame))]
  refine ⟨T.1 "good" (Json.num 1) rfl rfl, T2.2.1 "bad" rfl rfl, T3.2.2.1 rfl,
    T3.2.2.2.1 rfl, T.2.2.2.2.1 rfl, T2.2.2.2.2.2.1 "" rfl (by decide),
    T3.2.2.2.2.2.2.1 (String.mk (toCsv sampleFrame)) sampleFrame rfl (by decide)⟩

end VNPrices
